import Mathlib

/-!
# Verification of the SMGT chat backend core (app/main.py)

A shallow embedding of the Query Guard (`is_safe_query`), the value
coercion (`_json_serializable`), the Query Executor
(`execute_database_query`), and the Gemini conversation loop of the chat
endpoint (`get_response`), together with theorems settling the frozen
specification claims.

Python strings are embedded as `List Char` (ASCII-faithful); the regex
operations of the guard are embedded as explicit character scanners with
the same matching semantics on ASCII input.
-/

namespace SMGT

/-! ## Query Guard: `is_safe_query` (app/main.py lines 42-68)

The Python code runs, in order:
1. `re.sub(r'--.*$', '', query, flags=re.MULTILINE)` — on each line,
   drop from the first `--` to the end of the line (the newline stays);
2. `re.sub(r'/\*.*?\*/', '', ..., flags=re.DOTALL)` — drop every
   non-greedy block comment `/* ... */`; an unterminated `/*` is kept;
3. `.strip().upper()`;
4. reject unless the cleaned text starts with `SELECT`;
5. reject if any denylisted keyword occurs as a whole word
   (`re.search(r'\b' + keyword + r'\b', ...)`).
-/

mutual

/-- Step 1 of the guard's cleaning: `re.sub(r'--.*$', '', q, flags=re.MULTILINE)`.
Scans left to right; on `--` it switches to comment-skipping mode. -/
def stripLineComments : List Char → List Char
  | [] => []
  | '-' :: '-' :: rest => inLineComment rest
  | c :: rest => c :: stripLineComments rest

/-- Comment-skipping mode of `stripLineComments`: drop characters up to
(but not including) the next newline, since `.` does not match `\n` and
`$` matches just before it under `re.MULTILINE`. -/
def inLineComment : List Char → List Char
  | [] => []
  | '\n' :: rest => '\n' :: stripLineComments rest
  | _ :: rest => inLineComment rest

end

/-- Whether the closing delimiter `*/` occurs somewhere in the list. -/
def hasCloseDelim : List Char → Bool
  | '*' :: '/' :: _ => true
  | _ :: rest => hasCloseDelim rest
  | [] => false

mutual

/-- Step 2 of the guard's cleaning:
`re.sub(r'/\*.*?\*/', '', q, flags=re.DOTALL)`. A `/*` with a later
`*/` is removed up to the first such `*/` (non-greedy); a `/*` with no
closing delimiter does not match and is kept. Once no `*/` remains
anywhere in the suffix, no further match is possible (every match ends
in `*/`), so the suffix is emitted verbatim. -/
def stripBlockComments : List Char → List Char
  | [] => []
  | '/' :: '*' :: rest =>
      if hasCloseDelim rest then inBlockComment rest
      else '/' :: '*' :: rest
  | c :: rest => c :: stripBlockComments rest

/-- Comment-skipping mode of `stripBlockComments`: drop characters up to
and including the first `*/`, then resume scanning. -/
def inBlockComment : List Char → List Char
  | [] => []
  | '*' :: '/' :: rest => stripBlockComments rest
  | _ :: rest => inBlockComment rest

end

/-- The six characters Python's `str.strip` removes (ASCII whitespace). -/
def isPySpace (c : Char) : Bool :=
  c = ' ' || c = '\t' || c = '\n' || c = '\r' || c = '\x0b' || c = '\x0c'

/-- Python `str.strip()`: remove whitespace from both ends. -/
def pyStrip (l : List Char) : List Char :=
  ((l.dropWhile isPySpace).reverse.dropWhile isPySpace).reverse

/-- Python `str.upper()` on ASCII text. -/
def pyUpper (l : List Char) : List Char :=
  l.map Char.toUpper

/-- The full cleaning pipeline of `is_safe_query`. -/
def cleanQuery (query : List Char) : List Char :=
  pyUpper (pyStrip (stripBlockComments (stripLineComments query)))

/-- `a.isPrefixOf b` on character lists, written out. -/
def listStartsWith : List Char → List Char → Bool
  | [], _ => true
  | _ :: _, [] => false
  | p :: ps, c :: cs => p = c && listStartsWith ps cs

/-- A word character for Python's `\b` boundary on ASCII text:
`[A-Za-z0-9_]`. -/
def isWordChar (c : Char) : Bool :=
  c.isAlphanum || c = '_'

/-- `kw` matches at the head of `rest` and is followed by a word
boundary (end of text or a non-word character). -/
def matchHere (kw rest : List Char) : Bool :=
  listStartsWith kw rest &&
    (match rest.drop kw.length with
     | [] => true
     | c :: _ => !(isWordChar c))

/-- Scan for a whole-word occurrence of `kw`, tracking whether the
previous character was a word character (the left `\b` boundary). -/
def containsWordFrom (kw : List Char) (prevIsWord : Bool) : List Char → Bool
  | [] => false
  | c :: rest =>
      (!prevIsWord && matchHere kw (c :: rest)) ||
        containsWordFrom kw (isWordChar c) rest

/-- `re.search(r'\b' + kw + r'\b', text) is not None` for a keyword made
of word characters. -/
def containsWord (kw text : List Char) : Bool :=
  containsWordFrom kw false text

/-- The guard's denylist (app/main.py lines 57-61). -/
def dangerous_keywords : List (List Char) :=
  ["INSERT".toList, "UPDATE".toList, "DELETE".toList, "DROP".toList,
   "CREATE".toList, "ALTER".toList, "TRUNCATE".toList, "REPLACE".toList,
   "MERGE".toList, "GRANT".toList, "REVOKE".toList, "EXEC".toList,
   "EXECUTE".toList, "CALL".toList, "INTO".toList]

/-- `is_safe_query` (app/main.py lines 42-68): clean the query
(`query_cleaned` in the source), require a `SELECT` prefix, reject any
whole-word denylisted keyword (the source's for-loop with early
`return False` is the `List.any`). -/
def is_safe_query (query : List Char) : Bool :=
  if !(listStartsWith "SELECT".toList (cleanQuery query)) then false
  else if dangerous_keywords.any (fun kw => containsWord kw (cleanQuery query)) then false
  else true

/-! ## Value coercion: `_json_serializable` (app/main.py lines 71-83)

Python runtime values flowing out of the database driver are embedded
as `PyValue`. `decimal.Decimal` amounts and the `float`s they are
converted to are idealized as exact rationals: the claims concern the
type/shape of the transport payload, not IEEE-754 rounding. -/

/-- A `datetime.date`. -/
structure PyDate where
  year : Nat
  month : Nat
  day : Nat
deriving DecidableEq, Repr

/-- A `datetime.datetime` (microseconds omitted; values from the store
carry whole seconds). -/
structure PyDatetime where
  year : Nat
  month : Nat
  day : Nat
  hour : Nat
  minute : Nat
  second : Nat
deriving DecidableEq, Repr

/-- Zero-pad the decimal digits of `n` to `width` characters. -/
def padNum (width n : Nat) : List Char :=
  List.replicate (width - (Nat.toDigits 10 n).length) '0' ++ Nat.toDigits 10 n

/-- `date.isoformat()`: `YYYY-MM-DD`. -/
def isoDate (d : PyDate) : List Char :=
  padNum 4 d.year ++ "-".toList ++ padNum 2 d.month ++ "-".toList ++ padNum 2 d.day

/-- `datetime.isoformat()`: `YYYY-MM-DDTHH:MM:SS`. -/
def isoDatetime (d : PyDatetime) : List Char :=
  padNum 4 d.year ++ "-".toList ++ padNum 2 d.month ++ "-".toList ++ padNum 2 d.day
    ++ "T".toList ++ padNum 2 d.hour ++ ":".toList ++ padNum 2 d.minute
    ++ ":".toList ++ padNum 2 d.second

/-- A Python runtime value as handled by `_json_serializable`. -/
inductive PyValue where
  | pyNone : PyValue
  | pyBool : Bool → PyValue
  | pyInt : Int → PyValue
  | pyFloat : ℚ → PyValue
  | pyStr : List Char → PyValue
  | pyDecimal : ℚ → PyValue
  | pyDate : PyDate → PyValue
  | pyDatetime : PyDatetime → PyValue
  | pyDict : List (List Char × PyValue) → PyValue
  | pyList : List PyValue → PyValue
  | pyTuple : List PyValue → PyValue

mutual

/-- `_json_serializable` (app/main.py lines 71-83): `None` passes
through, `Decimal` becomes `float`, `date`/`datetime` become their
ISO-8601 strings, dictionaries and lists/tuples are converted
recursively (a tuple comes back as a list), everything else passes
through. -/
def _json_serializable : PyValue → PyValue
  | .pyNone => .pyNone
  | .pyDecimal d => .pyFloat d
  | .pyDate d => .pyStr (isoDate d)
  | .pyDatetime d => .pyStr (isoDatetime d)
  | .pyDict kvs => .pyDict (serializeKVs kvs)
  | .pyList vs => .pyList (serializeList vs)
  | .pyTuple vs => .pyList (serializeList vs)
  | .pyBool b => .pyBool b
  | .pyInt n => .pyInt n
  | .pyFloat x => .pyFloat x
  | .pyStr s => .pyStr s

/-- Elementwise `_json_serializable` over a list (the comprehension of
the list/tuple branch). -/
def serializeList : List PyValue → List PyValue
  | [] => []
  | v :: vs => _json_serializable v :: serializeList vs

/-- Valuewise `_json_serializable` over dict items (the comprehension
of the dict branch). -/
def serializeKVs : List (List Char × PyValue) → List (List Char × PyValue)
  | [] => []
  | (k, v) :: kvs => (k, _json_serializable v) :: serializeKVs kvs

end

mutual

/-- No `Decimal` value occurs anywhere inside the value. -/
def decimalFree : PyValue → Bool
  | .pyDecimal _ => false
  | .pyDict kvs => decimalFreeKVs kvs
  | .pyList vs => decimalFreeList vs
  | .pyTuple vs => decimalFreeList vs
  | .pyNone => true
  | .pyBool _ => true
  | .pyInt _ => true
  | .pyFloat _ => true
  | .pyStr _ => true
  | .pyDate _ => true
  | .pyDatetime _ => true

/-- No `Decimal` value occurs in any element. -/
def decimalFreeList : List PyValue → Bool
  | [] => true
  | v :: vs => decimalFree v && decimalFreeList vs

/-- No `Decimal` value occurs in any dict entry. -/
def decimalFreeKVs : List (List Char × PyValue) → Bool
  | [] => true
  | (_, v) :: kvs => decimalFree v && decimalFreeKVs kvs

end

/-- Association-list lookup: the value reachable by a key in a dict. -/
def dictGet (key : List Char) : List (List Char × PyValue) → Option PyValue
  | [] => Option.none
  | (k, v) :: kvs => if k = key then some v else dictGet key kvs

/-! ## Query Executor: `execute_database_query` (app/main.py lines 86-129)

The SQLAlchemy session is embedded as an oracle fixing what the store
does for each query text, together with the transaction's
aborted/usable flag: after a failed execution the transaction is
aborted and every further command raises until `rollback()` runs. The
executor additionally reports the trace of store operations it
performed, so that "the store was never touched" is expressible. -/

/-- What executing a query against the store does: either a result set
(the column names of `result.keys()` and the rows of
`result.fetchall()`) or a raised exception carrying a message. -/
inductive RawOutcome where
  | ok : List (List Char) → List (List PyValue) → RawOutcome
  | raise : List Char → RawOutcome

/-- A SQLAlchemy `Session`: the store oracle plus the
failed-transaction flag. -/
structure Session where
  oracle : List Char → RawOutcome
  failed : Bool

/-- Message raised when a command runs on an aborted transaction. -/
def abortedTransactionMsg : List Char :=
  "current transaction is aborted, commands ignored until end of transaction block".toList

/-- `db.execute(text(query))` plus the row fetch: raises if the
transaction is aborted, otherwise behaves as the oracle says; a raise
aborts the transaction. -/
def sessionExec (s : Session) (q : List Char) : RawOutcome × Session :=
  if s.failed then (RawOutcome.raise abortedTransactionMsg, s)
  else
    match s.oracle q with
    | RawOutcome.ok cols rows => (RawOutcome.ok cols rows, s)
    | RawOutcome.raise m => (RawOutcome.raise m, { s with failed := true })

/-- `db.rollback()`: the transaction becomes usable again. -/
def sessionRollback (s : Session) : Session :=
  { s with failed := false }

/-- An observable store-level operation of one executor call. -/
inductive DBOp where
  | exec : List Char → DBOp
  | rollback : DBOp
deriving DecidableEq

/-- The executor's result dictionary. `row_count := Option.none` means
the key is absent (the two failure dictionaries carry no `row_count`). -/
structure QueryResult where
  success : Bool
  row_count : Option Nat
  data : Option (List (List (List Char × PyValue)))
  error : Option (List Char)

/-- Error string of the guard-rejection result (app/main.py line 96). -/
def notAllowedMsg : List Char :=
  "Query is not allowed. Only SELECT queries are permitted.".toList

/-- Prefix of execution-failure error strings (app/main.py line 127). -/
def dbErrorHead : List Char :=
  "Database query error: ".toList

/-- One result row: `dict(zip(columns, row))` with every value passed
through `_json_serializable` (app/main.py lines 109-113); the row is
kept as an association list. -/
def rowToDict (cols : List (List Char)) (row : List PyValue) :
    List (List Char × PyValue) :=
  (List.zip cols row).map (fun kv => (kv.1, _json_serializable kv.2))

/-- `execute_database_query` (app/main.py lines 86-129): validate with
the guard (rejection returns without touching the store), execute,
fetch and convert rows on success; any store exception is caught, the
transaction rolled back, and an error dictionary returned — no path
raises outward. Returns the result dictionary, the session as left
behind, and the trace of store operations. -/
def execute_database_query (db : Session) (query : List Char) :
    QueryResult × Session × List DBOp :=
  if is_safe_query query = false then
    ({ success := false, row_count := Option.none, data := Option.none,
       error := some notAllowedMsg }, db, [])
  else
    match sessionExec db query with
    | (RawOutcome.ok cols rows, db1) =>
        ({ success := true, row_count := some (rows.map (rowToDict cols)).length,
           data := some (rows.map (rowToDict cols)), error := Option.none },
         db1, [DBOp.exec query])
    | (RawOutcome.raise msg, db1) =>
        ({ success := false, row_count := Option.none, data := Option.none,
           error := some (dbErrorHead ++ msg) },
         sessionRollback db1, [DBOp.exec query, DBOp.rollback])

/-- A sample store used by witnesses: `SELECT 1` yields one row, every
other query raises. -/
def sampleOracle : List Char → RawOutcome := fun q =>
  if q = "SELECT 1".toList then
    RawOutcome.ok ["one".toList] [[PyValue.pyInt 1]]
  else RawOutcome.raise "relation does not exist".toList

/-- A fresh session over `sampleOracle`. -/
def sampleSession : Session :=
  { oracle := sampleOracle, failed := false }

/-! ## Conversation loop: the `/chat` handler `get_response`
(app/main.py lines 335-477)

The remote Gemini model is embedded as an oracle from the history sent
to `client.models.generate_content` to what that call does (returns a
response or raises). The handler's globals `_db_session` and
`final_text` are request-scoped in the source (set at entry, cleared in
`finally`), so they are threaded explicitly through the loop state. -/

/-- A navigation button (`{text, url}` dict of `generate_button`). -/
structure Button where
  text : List Char
  url : List Char
deriving DecidableEq, Repr

/-- A tool invocation requested by the model. The source resolves the
call's name via `globals().get(tool_name)`: the two declared tools
carry their declared argument, any other name falls into the
`Function not found` branch of `handle_tool_calls`. -/
inductive FunctionCall where
  | querySql : List Char → FunctionCall
  | genButton : List Button → FunctionCall
  | unresolved : List Char → FunctionCall

/-- The result dictionary a dispatched tool call produces. -/
inductive ToolResult where
  | queryRes : QueryResult → ToolResult
  | buttonAck : ToolResult
  | notFound : ToolResult

/-- `types.FunctionResponse(name=..., response={"result": ...})`. -/
structure FunctionResponse where
  name : List Char
  response : ToolResult

/-- One part of a content turn: text, a tool invocation, or a tool
result. -/
structure Part where
  text : Option (List Char)
  function_call : Option FunctionCall
  function_response : Option FunctionResponse

/-- A text-only part. -/
def textPart (t : List Char) : Part :=
  ⟨some t, Option.none, Option.none⟩

/-- A function-call part. -/
def callPart (fc : FunctionCall) : Part :=
  ⟨Option.none, some fc, Option.none⟩

/-- A function-response part. -/
def responsePart (fr : FunctionResponse) : Part :=
  ⟨Option.none, Option.none, some fr⟩

/-- `types.Content`: a role-tagged list of parts. -/
structure Content where
  role : List Char
  parts : List Part

/-- A model candidate (`response.candidates[i]`). -/
structure Candidate where
  content : Content

/-- A model response. -/
structure Response where
  candidates : List Candidate

/-- What one `generate_content` call does: a response, or a raised
network/API exception with message. -/
inductive ModelOutcome where
  | ok : Response → ModelOutcome
  | raise : List Char → ModelOutcome

/-- The `final_text` buffer: a dict optionally holding `"response"`
and `"buttons"` (app/main.py line 39, reset per request at line 380). -/
structure FinalText where
  response : Option (List Char)
  buttons : Option (List Button)

/-- The buffer as reset at the start of a request. -/
def emptyFinalText : FinalText :=
  ⟨Option.none, Option.none⟩

/-- Dispatch one tool call (the body of `handle_tool_calls`, lines
338-352): `generate_query_sql` forwards to `execute_database_query` on
the request-scoped session (lines 132-147); `generate_button` records
the buttons into `final_text` and acknowledges (lines 184-196); any
other name produces the error result. Returns the `FunctionResponse`
plus the updated session and buffer. -/
def dispatchCall (db : Session) (ft : FinalText) :
    FunctionCall → FunctionResponse × Session × FinalText
  | FunctionCall.querySql q =>
      (⟨"generate_query_sql".toList,
        ToolResult.queryRes (execute_database_query db q).1⟩,
       (execute_database_query db q).2.1, ft)
  | FunctionCall.genButton bs =>
      (⟨"generate_button".toList, ToolResult.buttonAck⟩, db,
       { ft with buttons := some bs })
  | FunctionCall.unresolved n =>
      (⟨n, ToolResult.notFound⟩, db, ft)

/-- `handle_tool_calls` (lines 335-354): dispatch each call in order,
collecting the function responses. -/
def handle_tool_calls (db : Session) (ft : FinalText) :
    List FunctionCall → List FunctionResponse × Session × FinalText
  | [] => ([], db, ft)
  | fc :: fcs =>
      ((dispatchCall db ft fc).1 ::
          (handle_tool_calls (dispatchCall db ft fc).2.1 (dispatchCall db ft fc).2.2 fcs).1,
       (handle_tool_calls (dispatchCall db ft fc).2.1 (dispatchCall db ft fc).2.2 fcs).2)

/-- The parts' function calls, in order (lines 419-422). -/
def collectCalls : List Part → List FunctionCall
  | [] => []
  | p :: ps =>
      match p.function_call with
      | some fc => fc :: collectCalls ps
      | Option.none => collectCalls ps

/-- State threaded through the conversation loop: history, `final_text`
buffer, request-scoped session, and the number of `generate_content`
calls made so far. -/
structure LoopState where
  history : List Content
  final_text : FinalText
  db : Session
  modelCalls : Nat

/-- The state after one tool-dispatching iteration (lines 424-440): the
model content and the tool-result content (role `user`) are appended to
the history, session and buffer are updated by the dispatch, and the
call counter is bumped for the `generate_content` call that follows. -/
def stepState (st : LoopState) (cand : Candidate) (fcs : List FunctionCall) : LoopState :=
  { history := st.history ++ [cand.content]
      ++ [⟨"user".toList,
            (handle_tool_calls st.db st.final_text fcs).1.map responsePart⟩],
    final_text := (handle_tool_calls st.db st.final_text fcs).2.2,
    db := (handle_tool_calls st.db st.final_text fcs).2.1,
    modelCalls := st.modelCalls + 1 }

/-- The `while not done and iteration_count < max_iterations` loop
(lines 405-442), with `remaining = max_iterations - iteration_count` as
the fuel. An iteration: no candidates breaks the loop; a model turn
without function calls appends it and sets `done`; a turn with function
calls dispatches them, appends the tool results and calls the model
again on the grown history. `Except.error` carries a raised exception's
message and the number of model calls made by then. -/
def convLoop (model : List Content → ModelOutcome) :
    Nat → LoopState → Response → Except (List Char × Nat) (LoopState × Response)
  | 0, st, resp => Except.ok (st, resp)
  | Nat.succ n, st, resp =>
      match resp.candidates with
      | [] => Except.ok (st, resp)
      | cand :: _ =>
          match collectCalls cand.content.parts with
          | [] => Except.ok ({ st with history := st.history ++ [cand.content] }, resp)
          | fc :: fcs =>
              match model (stepState st cand (fc :: fcs)).history with
              | ModelOutcome.raise m =>
                  Except.error (m, (stepState st cand (fc :: fcs)).modelCalls)
              | ModelOutcome.ok resp2 =>
                  convLoop model n (stepState st cand (fc :: fcs)) resp2

/-- Model-call count carried by a loop outcome. -/
def callsOf : Except (List Char × Nat) (LoopState × Response) → Nat
  | Except.ok (st, _) => st.modelCalls
  | Except.error (_, k) => k

/-- First non-empty text part (lines 446-449: `if hasattr(part, 'text')
and part.text` — Python truthiness skips `None` and empty strings). -/
def firstTruthyText : List Part → Option (List Char)
  | [] => Option.none
  | p :: ps =>
      match p.text with
      | some t => if t.isEmpty then firstTruthyText ps else some t
      | Option.none => firstTruthyText ps

/-- Lines 444-449: store the final response's first non-empty text part
into `final_text["response"]`, when the response has a candidate with
such a part. -/
def extractFinalText (ft : FinalText) (resp : Response) : FinalText :=
  match resp.candidates with
  | [] => ft
  | cand :: _ =>
      match firstTruthyText cand.content.parts with
      | some t => { ft with response := some t }
      | Option.none => ft

/-- Python truthiness of the optional response text (`None` and `""`
are falsy). -/
def textTruthy : Option (List Char) → Bool
  | Option.none => false
  | some t => !t.isEmpty

/-- Python truthiness of the optional button list (`None` and `[]` are
falsy). -/
def buttonsTruthy : Option (List Button) → Bool
  | Option.none => false
  | some bs => !bs.isEmpty

/-- The fixed fallback text (line 457). -/
def fallbackText : List Char :=
  "Here are some options for you:".toList

/-- `ChatResponse`: the endpoint's reply payload. -/
structure ChatResponse where
  response : Option (List Char)
  buttons : Option (List Button)
deriving DecidableEq, Repr

/-- Response assembly (lines 444-468): extract the final text, then —
if buttons exist but no text does (Python truthiness, line 456) —
substitute the fixed fallback text. -/
def assembleResponse (ft : FinalText) (resp : Response) : ChatResponse :=
  ⟨if buttonsTruthy (extractFinalText ft resp).buttons
        && !(textTruthy (extractFinalText ft resp).response)
    then some fallbackText
    else (extractFinalText ft resp).response,
   (extractFinalText ft resp).buttons⟩

/-- Outcome at the HTTP layer: a 200 chat response, or an
`HTTPException` with status code and detail. -/
inductive HttpResult where
  | ok : ChatResponse → HttpResult
  | httpError : Nat → List Char → HttpResult

/-- `str(HTTPException(400, 'Message is required'))` as raised at line
384 (starlette renders it as `f"{status_code}: {detail}"`). -/
def emptyMessageExnText : List Char :=
  "400: Message is required".toList

/-- Prefix of the catch-all handler's 500 detail (line 474). -/
def internalErrorHead : List Char :=
  "Internal server error: ".toList

/-- Lines 386-395: the message sent to the model, prefixed with the
page annotation when the stripped `user_location` is non-blank (the
stripped form is interpolated). -/
def contextMessage (user_location message : List Char) : List Char :=
  if !(pyStrip user_location).isEmpty then
    "[User is currently on page: ".toList ++ pyStrip user_location
      ++ "]".toList ++ "\n\n".toList ++ message
  else message

/-- The initial history: the user's (context) message (line 397). -/
def initialHistory (user_location message : List Char) : List Content :=
  [⟨"user".toList, [textPart (contextMessage user_location message)]⟩]

/-- The body of the `/chat` handler inside its `try` (lines 382-468):
reject an empty message by raising `HTTPException(400)`, otherwise make
the initial model call, run the bounded loop, and assemble the reply.
`Except.error` is a raised exception (its rendered text) together with
the number of model calls made by then. -/
def get_response_body (model : List Content → ModelOutcome) (db : Session)
    (message user_location : List Char) :
    Except (List Char × Nat) (ChatResponse × Nat) :=
  if message.isEmpty then Except.error (emptyMessageExnText, 0)
  else
    match model (initialHistory user_location message) with
    | ModelOutcome.raise m => Except.error (m, 1)
    | ModelOutcome.ok resp0 =>
        match convLoop model 5 ⟨initialHistory user_location message,
            emptyFinalText, db, 1⟩ resp0 with
        | Except.error e => Except.error e
        | Except.ok (st, finalResp) =>
            Except.ok (assembleResponse st.final_text finalResp, st.modelCalls)

/-- `get_response` (lines 363-477): the body wrapped in the `except
Exception` catch-all (lines 470-474), which re-raises *any* exception —
including the handler's own `HTTPException(400)`, since FastAPI's
`HTTPException` subclasses `Exception` — as HTTP 500 with detail
`"Internal server error: " + str(e)`. Returns the HTTP outcome and the
number of `generate_content` calls made. -/
def get_response (model : List Content → ModelOutcome) (db : Session)
    (message user_location : List Char) : HttpResult × Nat :=
  match get_response_body model db message user_location with
  | Except.ok (cr, n) => (HttpResult.ok cr, n)
  | Except.error (m, n) => (HttpResult.httpError 500 (internalErrorHead ++ m), n)

/-- A sample button for concrete runs. -/
def sampleButton : Button :=
  ⟨"Browse all jeans".toList, "/ecommerce".toList⟩

/-- A model that requests a `generate_button` tool call on every turn,
no matter the history. -/
def alwaysToolModel : List Content → ModelOutcome := fun _ =>
  ModelOutcome.ok ⟨[⟨⟨"model".toList,
    [callPart (FunctionCall.genButton [sampleButton])]⟩⟩]⟩

/-- A model whose call always raises a transport error. -/
def failingModel : List Content → ModelOutcome := fun _ =>
  ModelOutcome.raise "503 Service Unavailable".toList

/-- A model that always answers with zero candidates. -/
def emptyCandidatesModel : List Content → ModelOutcome := fun _ =>
  ModelOutcome.ok ⟨[]⟩

/-- A model that calls the UI-hint tool on its first turn and then
produces a final turn with no text. -/
def buttonThenSilentModel : List Content → ModelOutcome := fun hist =>
  if hist.length ≤ 1 then
    ModelOutcome.ok ⟨[⟨⟨"model".toList,
      [callPart (FunctionCall.genButton [sampleButton])]⟩⟩]⟩
  else ModelOutcome.ok ⟨[⟨⟨"model".toList, []⟩⟩]⟩

end SMGT

namespace SMGT

/-! ## Guard lemmas -/

/-- `stripLineComments` is the identity on text without `-`. -/
theorem stripLineComments_no_dash (q : List Char) (h : '-' ∉ q) :
    stripLineComments q = q := by
  refine stripLineComments.induct
      (fun l => '-' ∉ l → stripLineComments l = l) (fun _ => True)
      ?_ ?_ ?_ ?_ ?_ ?_ q h
  · intro _
    rfl
  · intro rest _ hmem
    exact absurd (List.mem_cons_self _ _) hmem
  · intro c rest hne ih hmem
    rw [stripLineComments.eq_3 c rest hne,
      ih (fun hm => hmem (List.mem_cons_of_mem _ hm))]
  · exact trivial
  · intro rest _
    exact trivial
  · intro _ rest _ _
    exact trivial

/-- `stripBlockComments` is the identity on text without `/`. -/
theorem stripBlockComments_no_slash (q : List Char) (h : '/' ∉ q) :
    stripBlockComments q = q := by
  refine stripBlockComments.induct
      (fun l => '/' ∉ l → stripBlockComments l = l) (fun _ => True)
      ?_ ?_ ?_ ?_ ?_ ?_ ?_ q h
  · intro _
    rfl
  · intro rest _ _ hmem
    exact absurd (List.mem_cons_self _ _) hmem
  · intro rest _ hmem
    exact absurd (List.mem_cons_self _ _) hmem
  · intro c rest hne ih hmem
    rw [stripBlockComments.eq_3 c rest hne,
      ih (fun hm => hmem (List.mem_cons_of_mem _ hm))]
  · exact trivial
  · intro rest _
    exact trivial
  · intro _ rest _ _
    exact trivial

/-- Stripping a fully-whitespace string yields the empty string. -/
theorem pyStrip_all_space (l : List Char) (h : ∀ c ∈ l, isPySpace c = true) :
    pyStrip l = [] := by
  unfold pyStrip
  rw [List.dropWhile_eq_nil_iff.mpr h]
  rfl

/-- The cleaning pipeline maps whitespace-only queries to the empty
string. -/
theorem cleanQuery_all_space (q : List Char) (h : ∀ c ∈ q, isPySpace c = true) :
    cleanQuery q = [] := by
  have hdash : '-' ∉ q := fun hm => absurd (h _ hm) (by decide)
  have hslash : '/' ∉ q := fun hm => absurd (h _ hm) (by decide)
  unfold cleanQuery
  rw [stripLineComments_no_dash q hdash, stripBlockComments_no_slash q hslash,
    pyStrip_all_space q h]
  rfl

/-! ## Claim C2 -/

/-- C2, as frozen, quantifies over the raw query string: the query
`SELECT 1 -- DROP` contains the denylisted keyword `DROP` as a whole
word (and starts with `SELECT`), yet `is_safe_query` accepts it,
because the denylist is checked on the comment-stripped text and the
keyword sits inside a line comment. -/
theorem C2_denylist_counterexample :
    containsWord "DROP".toList "SELECT 1 -- DROP".toList = true ∧
    "DROP".toList ∈ dangerous_keywords ∧
    listStartsWith "SELECT".toList "SELECT 1 -- DROP".toList = true ∧
    is_safe_query "SELECT 1 -- DROP".toList = true := by
  decide

/-- C2 (amended): for every query whose *cleaned* form (comments
stripped, trimmed, uppercased) contains a denylisted keyword as a whole
word, `is_safe_query` returns false even when the cleaned query starts
with `SELECT`; and the match is whole-word only, so the `TRUNCATED`
query is accepted. -/
theorem C2_denylist_rejects :
    (∀ query kw : List Char, kw ∈ dangerous_keywords →
        containsWord kw (cleanQuery query) = true →
        is_safe_query query = false) ∧
    is_safe_query "SELECT * FROM jeans WHERE brand = 'TRUNCATED'".toList = true := by
  constructor
  · intro query kw hkw hword
    unfold is_safe_query
    have hany : dangerous_keywords.any (fun k => containsWord k (cleanQuery query)) = true :=
      List.any_eq_true.mpr ⟨kw, hkw, hword⟩
    rw [hany]
    cases hsel : listStartsWith "SELECT".toList (cleanQuery query) <;> simp
  · decide

/-- Witness for C2: the denylisted keyword `INTO` occurs (whole-word)
in the cleaned form of `SELECT * INTO backup FROM jeans`, and the guard
rejects that query. -/
theorem C2_denylist_rejects_witness :
    ("INTO".toList ∈ dangerous_keywords ∧
      containsWord "INTO".toList (cleanQuery "SELECT * INTO backup FROM jeans".toList) = true) ∧
    is_safe_query "SELECT * INTO backup FROM jeans".toList = false :=
  ⟨⟨by decide, by decide⟩,
    C2_denylist_rejects.1 "SELECT * INTO backup FROM jeans".toList "INTO".toList
      (by decide) (by decide)⟩

/-! ## Claim C3 -/

/-- C3: every query whose cleaned form does not begin with `SELECT` is
rejected by `is_safe_query`; in particular every whitespace-only (or
empty) query is rejected. -/
theorem C3_nonselect_rejected :
    (∀ query : List Char,
        listStartsWith "SELECT".toList (cleanQuery query) = false →
        is_safe_query query = false) ∧
    (∀ query : List Char, (∀ c ∈ query, isPySpace c = true) →
        is_safe_query query = false) := by
  constructor
  · intro query hpre
    unfold is_safe_query
    rw [hpre]
    rfl
  · intro query hsp
    unfold is_safe_query
    rw [cleanQuery_all_space query hsp]
    decide

/-- Witness for C3: `DELETE FROM jeans` does not start with `SELECT`
after cleaning and is rejected; the whitespace-only query `"   "` is
rejected. -/
theorem C3_nonselect_rejected_witness :
    (listStartsWith "SELECT".toList (cleanQuery "DELETE FROM jeans".toList) = false ∧
      is_safe_query "DELETE FROM jeans".toList = false) ∧
    is_safe_query "   ".toList = false :=
  ⟨⟨by decide, C3_nonselect_rejected.1 "DELETE FROM jeans".toList (by decide)⟩,
    C3_nonselect_rejected.2 "   ".toList (by decide)⟩

end SMGT

namespace SMGT

/-! ## Claim C9 -/

/-- Coercion leaves no `Decimal` anywhere in its output. -/
theorem decimalFree_serialize (v : PyValue) :
    decimalFree (_json_serializable v) = true := by
  refine _json_serializable.induct
      (fun v => decimalFree (_json_serializable v) = true)
      (fun vs => decimalFreeList (serializeList vs) = true)
      (fun kvs => decimalFreeKVs (serializeKVs kvs) = true)
      ?_ ?_ ?_ ?_ ?_ ?_ ?_ ?_ ?_ ?_ ?_ ?_ ?_ ?_ ?_ v
  all_goals intros
  all_goals simp_all [_json_serializable, serializeList, serializeKVs,
    decimalFree, decimalFreeList, decimalFreeKVs]

/-- C9: a row value `{"USD": d}` holding a `Decimal` amount comes back
from the executor's coercion as a plain numeric reachable by key
`"USD"`; no `Decimal` survives the coercion anywhere; and the coercion
sends `Decimal` to `float`, `date`/`datetime` to their ISO-8601
strings, and recurses into mappings and sequences. -/
theorem C9_value_coercion :
    (∀ d : ℚ,
        _json_serializable (PyValue.pyDict [("USD".toList, PyValue.pyDecimal d)]) =
          PyValue.pyDict [("USD".toList, PyValue.pyFloat d)] ∧
        dictGet "USD".toList (serializeKVs [("USD".toList, PyValue.pyDecimal d)]) =
          some (PyValue.pyFloat d)) ∧
    (∀ v : PyValue, decimalFree (_json_serializable v) = true) ∧
    (∀ d : ℚ, _json_serializable (PyValue.pyDecimal d) = PyValue.pyFloat d) ∧
    (∀ d : PyDate, _json_serializable (PyValue.pyDate d) = PyValue.pyStr (isoDate d)) ∧
    (∀ d : PyDatetime,
        _json_serializable (PyValue.pyDatetime d) = PyValue.pyStr (isoDatetime d)) ∧
    (∀ kvs, _json_serializable (PyValue.pyDict kvs) = PyValue.pyDict (serializeKVs kvs)) ∧
    (∀ vs, _json_serializable (PyValue.pyList vs) = PyValue.pyList (serializeList vs)) ∧
    (∀ vs, _json_serializable (PyValue.pyTuple vs) = PyValue.pyList (serializeList vs)) ∧
    isoDate ⟨2024, 3, 7⟩ = "2024-03-07".toList := by
  refine ⟨?_, decimalFree_serialize, ?_, ?_, ?_, ?_, ?_, ?_, ?_⟩
  · intro d
    constructor
    · simp [_json_serializable, serializeKVs]
    · simp [serializeKVs, dictGet, _json_serializable]
  · intro d
    rfl
  · intro d
    rfl
  · intro d
    rfl
  · intro kvs
    simp [_json_serializable]
  · intro vs
    simp [_json_serializable]
  · intro vs
    simp [_json_serializable]
  · decide

end SMGT

namespace SMGT

/-! ## Claim C5 -/

/-- C5: a query rejected by the guard yields exactly the not-allowed
result dictionary (`success: false`, `data: None`), the session comes
back unchanged and the trace of store operations is empty — no cursor
is opened and the connection is not touched. The error string is the
source's not-allowed message. -/
theorem C5_rejected_no_store_touch :
    (∀ (db : Session) (query : List Char), is_safe_query query = false →
        execute_database_query db query =
          ({ success := false, row_count := Option.none, data := Option.none,
             error := some notAllowedMsg }, db, [])) ∧
    notAllowedMsg = "Query is ".toList ++ "not allowed".toList
        ++ ". Only SELECT queries are permitted.".toList := by
  constructor
  · intro db query h
    simp [execute_database_query, h]
  · decide

/-- Witness for C5: `DROP TABLE jeans` is rejected and leaves the
sample session untouched. -/
theorem C5_rejected_no_store_touch_witness :
    is_safe_query "DROP TABLE jeans".toList = false ∧
    execute_database_query sampleSession "DROP TABLE jeans".toList =
      ({ success := false, row_count := Option.none, data := Option.none,
         error := some notAllowedMsg }, sampleSession, []) :=
  ⟨by decide,
    C5_rejected_no_store_touch.1 sampleSession "DROP TABLE jeans".toList (by decide)⟩

/-! ## Claim C4 -/

/-- C4: when the store raises during execution of a guard-accepted
query, the executor returns normally with `success: false`, `data:
None` and a readable error string; the transaction is rolled back (the
returned session is usable again, same oracle, `failed = false`), and
a subsequent valid query on that session succeeds. (That the function
never raises outward is structural: `execute_database_query` is a total
function into result triples; every store exception is consumed by the
`except` branch.) -/
theorem C4_failure_caught_rolled_back :
    ∀ (db : Session) (query msg : List Char),
      is_safe_query query = true → db.failed = false →
      db.oracle query = RawOutcome.raise msg →
      (execute_database_query db query).1.success = false ∧
      (execute_database_query db query).1.data = Option.none ∧
      (execute_database_query db query).1.error = some (dbErrorHead ++ msg) ∧
      (execute_database_query db query).2.1.failed = false ∧
      (execute_database_query db query).2.1.oracle = db.oracle ∧
      (execute_database_query db query).2.2 = [DBOp.exec query, DBOp.rollback] ∧
      (∀ (q2 : List Char) (cols : List (List Char)) (rows : List (List PyValue)),
          is_safe_query q2 = true → db.oracle q2 = RawOutcome.ok cols rows →
          ((execute_database_query (execute_database_query db query).2.1 q2).1).success
            = true) := by
  intro db query msg hsafe hlive horacle
  have hmain : execute_database_query db query =
      ({ success := false, row_count := Option.none, data := Option.none,
         error := some (dbErrorHead ++ msg) },
       { oracle := db.oracle, failed := false },
       [DBOp.exec query, DBOp.rollback]) := by
    simp [execute_database_query, hsafe, sessionExec, hlive, horacle, sessionRollback]
  rw [hmain]
  refine ⟨rfl, rfl, rfl, rfl, rfl, rfl, ?_⟩
  intro q2 cols rows hq2 horacle2
  simp [execute_database_query, hq2, sessionExec, horacle2]

/-- Witness for C4: on the sample session, `SELECT 2` passes the guard
but the store raises; the executor reports failure, the session is
rolled back, and `SELECT 1` succeeds on it afterwards. -/
theorem C4_failure_caught_rolled_back_witness :
    (is_safe_query "SELECT 2".toList = true ∧
      sampleSession.failed = false ∧
      sampleSession.oracle "SELECT 2".toList =
        RawOutcome.raise "relation does not exist".toList) ∧
    (execute_database_query sampleSession "SELECT 2".toList).1.success = false ∧
    (execute_database_query sampleSession "SELECT 2".toList).1.error =
      some (dbErrorHead ++ "relation does not exist".toList) ∧
    (execute_database_query sampleSession "SELECT 2".toList).2.1.failed = false ∧
    ((execute_database_query (execute_database_query sampleSession "SELECT 2".toList).2.1
        "SELECT 1".toList).1).success = true := by
  have h := C4_failure_caught_rolled_back sampleSession "SELECT 2".toList
    "relation does not exist".toList (by decide) rfl rfl
  exact ⟨⟨by decide, rfl, rfl⟩, h.1, h.2.2.1, h.2.2.2.1,
    h.2.2.2.2.2.2 "SELECT 1".toList ["one".toList] [[PyValue.pyInt 1]] (by decide) rfl⟩

/-! ## Claim C10 -/

/-- C10: shape invariant of every executor result — on success the
error is `None` and `row_count` is the length of `data`; on failure
`data` is `None` and the error is a non-empty string. -/
theorem C10_result_shape :
    ∀ (db : Session) (query : List Char),
      ((execute_database_query db query).1.success = true →
        (execute_database_query db query).1.error = Option.none ∧
        ∃ d, (execute_database_query db query).1.data = some d ∧
          (execute_database_query db query).1.row_count = some d.length) ∧
      ((execute_database_query db query).1.success = false →
        (execute_database_query db query).1.data = Option.none ∧
        ∃ e, (execute_database_query db query).1.error = some e ∧ e ≠ []) := by
  intro db query
  by_cases hq : is_safe_query query = false
  · have hmain : execute_database_query db query =
        ({ success := false, row_count := Option.none, data := Option.none,
           error := some notAllowedMsg }, db, []) := by
      simp [execute_database_query, hq]
    rw [hmain]
    exact ⟨fun hs => Bool.noConfusion hs,
      fun _ => ⟨rfl, notAllowedMsg, rfl, by decide⟩⟩
  · rcases h : sessionExec db query with ⟨ro, db1⟩
    cases ro with
    | ok cols rows =>
        have hmain : execute_database_query db query =
            ({ success := true, row_count := some (rows.map (rowToDict cols)).length,
               data := some (rows.map (rowToDict cols)), error := Option.none },
             db1, [DBOp.exec query]) := by
          simp [execute_database_query, hq, h]
        rw [hmain]
        exact ⟨fun _ => ⟨rfl, rows.map (rowToDict cols), rfl, rfl⟩,
          fun hf => Bool.noConfusion hf⟩
    | raise msg =>
        have hmain : execute_database_query db query =
            ({ success := false, row_count := Option.none, data := Option.none,
               error := some (dbErrorHead ++ msg) },
             sessionRollback db1, [DBOp.exec query, DBOp.rollback]) := by
          simp [execute_database_query, hq, h]
        rw [hmain]
        exact ⟨fun hs => Bool.noConfusion hs,
          fun _ => ⟨rfl, dbErrorHead ++ msg, rfl, by simp [dbErrorHead]⟩⟩

/-- Witness for C10: evaluated on the sample session, the successful
`SELECT 1` result satisfies the success half of the invariant and the
rejected `DROP TABLE jeans` result the failure half. -/
theorem C10_result_shape_witness :
    ((execute_database_query sampleSession "SELECT 1".toList).1.error = Option.none ∧
      ∃ d, (execute_database_query sampleSession "SELECT 1".toList).1.data = some d ∧
        (execute_database_query sampleSession "SELECT 1".toList).1.row_count
          = some d.length) ∧
    ((execute_database_query sampleSession "DROP TABLE jeans".toList).1.data
        = Option.none ∧
      ∃ e, (execute_database_query sampleSession "DROP TABLE jeans".toList).1.error
          = some e ∧ e ≠ []) :=
  ⟨(C10_result_shape sampleSession "SELECT 1".toList).1 (by decide),
    (C10_result_shape sampleSession "DROP TABLE jeans".toList).2 (by decide)⟩

end SMGT

namespace SMGT

/-! ## Conversation-loop lemmas -/

/-- With `n` iterations of budget left, the loop makes at most `n`
further model calls. -/
theorem convLoop_calls_le (model : List Content → ModelOutcome) :
    ∀ (n : Nat) (st : LoopState) (resp : Response),
      callsOf (convLoop model n st resp) ≤ st.modelCalls + n := by
  intro n
  induction n with
  | zero =>
      intro st resp
      simp [convLoop, callsOf]
  | succ n ih =>
      intro st resp
      cases hcand : resp.candidates with
      | nil =>
          simp [convLoop, hcand, callsOf]
      | cons cand rest =>
          cases hcalls : collectCalls cand.content.parts with
          | nil =>
              simp [convLoop, hcand, hcalls, callsOf]
          | cons fc fcs =>
              cases hm : model (stepState st cand (fc :: fcs)).history with
              | raise m =>
                  simp only [convLoop, hcand, hcalls, hm, callsOf]
                  have hs : (stepState st cand (fc :: fcs)).modelCalls
                      = st.modelCalls + 1 := rfl
                  omega
              | ok resp2 =>
                  have h := ih (stepState st cand (fc :: fcs)) resp2
                  have hs : (stepState st cand (fc :: fcs)).modelCalls
                      = st.modelCalls + 1 := rfl
                  rw [hs] at h
                  calc callsOf (convLoop model (n + 1) st resp)
                      = callsOf (convLoop model n (stepState st cand (fc :: fcs)) resp2) := by
                        simp [convLoop, hcand, hcalls, hm]
                    _ ≤ st.modelCalls + 1 + n := h
                    _ ≤ st.modelCalls + (n + 1) := by omega

/-- A model call that raises aborts the request as a 500 after exactly
that one call (no retry). -/
theorem get_response_model_raise (model : List Content → ModelOutcome)
    (db : Session) (message user_location m : List Char)
    (hne : message ≠ []) (hm : model (initialHistory user_location message)
      = ModelOutcome.raise m) :
    get_response model db message user_location =
      (HttpResult.httpError 500 (internalErrorHead ++ m), 1) := by
  have hempty : message.isEmpty = false := by
    cases message with
    | nil => exact absurd rfl hne
    | cons c cs => rfl
  unfold get_response get_response_body
  simp [hempty, hm]

/-! ## Claim C1 -/

/-- C1, as frozen ("at most 5 model calls, no 6th call ever"), is
falsified by a concrete run: against a model that requests a tool call
on every turn, the chat request makes exactly 6 `generate_content`
calls (the initial one plus 5 in-loop ones), and still returns the
captured buttons with the fallback text. -/
theorem C1_budget_counterexample :
    (get_response alwaysToolModel sampleSession "hi".toList []).2 = 6 ∧
    ¬((get_response alwaysToolModel sampleSession "hi".toList []).2 ≤ 5) ∧
    (get_response alwaysToolModel sampleSession "hi".toList []).1 =
      HttpResult.ok ⟨some fallbackText, some [sampleButton]⟩ :=
  ⟨rfl, by decide, rfl⟩

/-- C1 (amended): every chat request makes at most 6 model calls — the
initial `generate_content` call plus at most 5 in-loop calls (one per
loop iteration); once the iteration counter reaches the bound of 5 the
loop stops, so no 7th call is ever made, and the request returns
whatever text/buttons were captured. -/
theorem C1_model_call_budget :
    ∀ (model : List Content → ModelOutcome) (db : Session)
      (message user_location : List Char),
      (get_response model db message user_location).2 ≤ 6 := by
  intro model db message loc
  unfold get_response get_response_body
  by_cases hempty : message.isEmpty = true
  · simp [hempty]
  · simp only [Bool.not_eq_true] at hempty
    simp only [hempty]
    cases hm : model (initialHistory loc message) with
    | raise m => simp
    | ok resp0 =>
        have h := convLoop_calls_le model 5
          ⟨initialHistory loc message, emptyFinalText, db, 1⟩ resp0
        cases hcl : convLoop model 5
            ⟨initialHistory loc message, emptyFinalText, db, 1⟩ resp0 with
        | error e =>
            rcases e with ⟨m, k⟩
            rw [hcl] at h
            simp only [callsOf] at h
            simp only [hcl]
            simpa using h
        | ok p =>
            rcases p with ⟨st, fr⟩
            rw [hcl] at h
            simp only [callsOf] at h
            simp only [hcl]
            simpa using h

/-! ## Claim C6 -/

/-- C6 (exhibiting the code bug): for an empty message the handler
raises `HTTPException(400)` at line 384, but its own catch-all `except
Exception` (line 470) intercepts it — FastAPI's `HTTPException`
subclasses `Exception` — and re-raises HTTP **500** with detail
`"Internal server error: 400: Message is required"`; no 400 and no
normal chat response reaches the client, and no model call is made.
The second half of the claim holds: a genuinely unhandled failure (a
raising model call) does yield HTTP 500 with an error message. -/
theorem C6_empty_message_http500 :
    (∀ (model : List Content → ModelOutcome) (db : Session) (loc : List Char),
        get_response model db [] loc =
          (HttpResult.httpError 500 (internalErrorHead ++ emptyMessageExnText), 0)) ∧
    internalErrorHead ++ emptyMessageExnText =
      "Internal server error: 400: Message is required".toList ∧
    (∀ (model : List Content → ModelOutcome) (db : Session) (loc : List Char)
        (cr : ChatResponse), (get_response model db [] loc).1 ≠ HttpResult.ok cr) ∧
    (∀ (model : List Content → ModelOutcome) (db : Session)
        (message loc m : List Char), message ≠ [] →
        model (initialHistory loc message) = ModelOutcome.raise m →
        get_response model db message loc =
          (HttpResult.httpError 500 (internalErrorHead ++ m), 1)) := by
  refine ⟨fun model db loc => rfl, by decide, ?_, ?_⟩
  · intro model db loc cr h
    exact HttpResult.noConfusion h
  · intro model db message loc m hne hm
    exact get_response_model_raise model db message loc m hne hm

/-- Witness for C6: with the sample failing model, the empty message
yields the 500 wrapping of the 400, and a non-empty message on the
raising model yields the transport-failure 500. -/
theorem C6_empty_message_http500_witness :
    get_response failingModel sampleSession [] [] =
      (HttpResult.httpError 500 (internalErrorHead ++ emptyMessageExnText), 0) ∧
    ("hi".toList ≠ [] ∧
      get_response failingModel sampleSession "hi".toList [] =
        (HttpResult.httpError 500
          (internalErrorHead ++ "503 Service Unavailable".toList), 1)) :=
  ⟨C6_empty_message_http500.1 failingModel sampleSession [],
    ⟨by decide,
      C6_empty_message_http500.2.2.2 failingModel sampleSession "hi".toList []
        "503 Service Unavailable".toList (by decide) rfl⟩⟩

/-! ## Claim C7 -/

/-- C7, as frozen, claims that a zero-candidate model response
propagates as a request-level failure; in fact the loop `break`s and
the request completes as a *normal* chat response (HTTP 200 with null
text and buttons) after exactly one model call. -/
theorem C7_no_candidates_counterexample :
    get_response emptyCandidatesModel sampleSession "hello".toList [] =
      (HttpResult.ok ⟨Option.none, Option.none⟩, 1) :=
  rfl

/-- C7 (amended): if the model call raises (network/API error) the loop
stops at once, no retry happens, and the failure propagates as an HTTP
500 — exactly one model call is made; if instead the model returns zero
candidates, the loop also stops at once with no retry, but the request
completes as a normal chat response assembled from whatever was
captured. -/
theorem C7_model_failure_no_retry :
    (∀ (model : List Content → ModelOutcome) (db : Session)
        (message user_location m : List Char), message ≠ [] →
        model (initialHistory user_location message) = ModelOutcome.raise m →
        get_response model db message user_location =
          (HttpResult.httpError 500 (internalErrorHead ++ m), 1)) ∧
    (∀ (model : List Content → ModelOutcome) (db : Session)
        (message user_location : List Char), message ≠ [] →
        model (initialHistory user_location message) = ModelOutcome.ok ⟨[]⟩ →
        get_response model db message user_location =
          (HttpResult.ok ⟨Option.none, Option.none⟩, 1)) := by
  constructor
  · exact fun model db message loc m hne hm =>
      get_response_model_raise model db message loc m hne hm
  · intro model db message loc hne hm
    have hempty : message.isEmpty = false := by
      cases message with
      | nil => exact absurd rfl hne
      | cons c cs => rfl
    unfold get_response get_response_body
    simp [hempty, hm, convLoop, assembleResponse, extractFinalText,
      emptyFinalText, buttonsTruthy]

/-- Witness for C7: the raising model yields the 500 after one call;
the zero-candidate model yields the empty 200 after one call. -/
theorem C7_model_failure_no_retry_witness :
    get_response failingModel sampleSession "ping".toList [] =
      (HttpResult.httpError 500
        (internalErrorHead ++ "503 Service Unavailable".toList), 1) ∧
    get_response emptyCandidatesModel sampleSession "ping".toList [] =
      (HttpResult.ok ⟨Option.none, Option.none⟩, 1) :=
  ⟨C7_model_failure_no_retry.1 failingModel sampleSession "ping".toList []
      "503 Service Unavailable".toList (by decide) rfl,
    C7_model_failure_no_retry.2 emptyCandidatesModel sampleSession "ping".toList []
      (by decide) rfl⟩

/-! ## Claim C8 -/

/-- Text extraction never changes the recorded buttons. -/
theorem extractFinalText_buttons (ft : FinalText) (resp : Response) :
    (extractFinalText ft resp).buttons = ft.buttons := by
  unfold extractFinalText
  cases hc : resp.candidates with
  | nil => rfl
  | cons cand rest =>
      cases hf : firstTruthyText cand.content.parts with
      | none => simp [hf]
      | some t => simp [hf]

/-- C8: if the UI-hint tool recorded a (non-empty) button list and the
final model turn produced no (non-empty) text, the assembled response's
text is exactly the non-empty fallback string and the buttons are kept;
if neither text nor buttons exist, the text is null. The last conjunct
runs a full request in which the model calls `generate_button` and then
answers with no text. -/
theorem C8_fallback_when_buttons_no_text :
    (∀ (ft : FinalText) (resp : Response) (bs : List Button),
        (extractFinalText ft resp).response = Option.none →
        ft.buttons = some bs → bs ≠ [] →
        (assembleResponse ft resp).response = some fallbackText ∧
        (assembleResponse ft resp).buttons = some bs ∧
        fallbackText ≠ []) ∧
    (∀ (ft : FinalText) (resp : Response),
        (extractFinalText ft resp).response = Option.none →
        ft.buttons = Option.none →
        (assembleResponse ft resp).response = Option.none) ∧
    (get_response buttonThenSilentModel sampleSession "hi".toList []).1 =
      HttpResult.ok ⟨some fallbackText, some [sampleButton]⟩ := by
  refine ⟨?_, ?_, rfl⟩
  · intro ft resp bs hresp hbtn hbs
    have hb : (extractFinalText ft resp).buttons = some bs := by
      rw [extractFinalText_buttons, hbtn]
    have hbe : bs.isEmpty = false := by
      cases bs with
      | nil => exact absurd rfl hbs
      | cons b bs' => rfl
    unfold assembleResponse
    rw [hb, hresp]
    refine ⟨?_, rfl, by decide⟩
    simp [buttonsTruthy, textTruthy, hbe]
  · intro ft resp hresp hbtn
    have hb : (extractFinalText ft resp).buttons = Option.none := by
      rw [extractFinalText_buttons, hbtn]
    unfold assembleResponse
    rw [hb, hresp]
    simp [buttonsTruthy]

/-- Witness for C8: a buffer holding one recorded button and a final
response with no candidates is assembled into the fallback text; a
fully empty buffer and response assemble into a null text. -/
theorem C8_fallback_when_buttons_no_text_witness :
    ((extractFinalText ⟨Option.none, some [sampleButton]⟩ ⟨[]⟩).response = Option.none ∧
      [sampleButton] ≠ []) ∧
    (assembleResponse ⟨Option.none, some [sampleButton]⟩ ⟨[]⟩).response =
      some fallbackText ∧
    (assembleResponse ⟨Option.none, Option.none⟩ ⟨[]⟩).response = Option.none :=
  ⟨⟨rfl, List.cons_ne_nil _ _⟩,
    (C8_fallback_when_buttons_no_text.1 ⟨Option.none, some [sampleButton]⟩ ⟨[]⟩
      [sampleButton] rfl rfl (List.cons_ne_nil _ _)).1,
    C8_fallback_when_buttons_no_text.2.1 ⟨Option.none, Option.none⟩ ⟨[]⟩ rfl rfl⟩

end SMGT
